import Mathlib

set_option maxHeartbeats 1000000

/-!
Verification of the BananaFate deletion subsystem
(`data-ingestion/data-ingestion-backend/helper_deletion.py`).

The module is embedded shallowly: the MongoDB collection is a list of
image records, the GCS bucket is an oracle `gcsOk : String → Bool` telling
which object deletions succeed, and the audit collection is a list of
audit records together with a flag `auditSinkOk` telling whether inserts
into it succeed.  Every helper of the Python module becomes a pure
function threading a `DeletionState`.
-/

/-- One MongoDB image document, restricted to the fields the deletion
module reads or writes. -/
structure ImageRecord where
  id : Nat
  objectPath : Option String
  isDeleted : Bool
  deletedAt : Option Nat
  deletedBy : Option String
deriving DecidableEq, Repr

/-- One document of the `deletion_audit` collection, as built by
`log_deletion_audit`.  The Python field `partialSuccess` is called
`partSuccess` here. -/
structure AuditRecord where
  timestamp : Nat
  userId : String
  operationType : String
  target : List (String × String)
  deletedCount : Nat
  gcsDeletedCount : Nat
  success : Bool
  errors : List String
  partSuccess : Bool
deriving DecidableEq, Repr

/-- The world the deletion helpers act on: the image collection, the GCS
bucket (as an oracle saying which `blob.delete()` calls succeed, plus logs
of attempted and successfully deleted paths), the audit collection and
whether inserts into it succeed, and the current clock value. -/
structure DeletionState where
  records : List ImageRecord
  gcsOk : String → Bool
  gcsAttempted : List String
  gcsDeleted : List String
  auditSinkOk : Bool
  auditLog : List AuditRecord
  now : Nat

/-- The module-level configuration read from the environment:
`SOFT_DELETE_ENABLED` and `SOFT_DELETE_RETENTION_DAYS`. -/
structure Config where
  softDeleteEnabled : Bool
  softDeleteRetentionDays : Nat
deriving DecidableEq, Repr

/-- Python exceptions raised by the module: `ValueError(msg)` and
`DeletionError(msg, gcs_errors)`. -/
inductive PyError where
  | valueError (msg : String)
  | deletionError (msg : String) (gcsErrors : List String)
deriving DecidableEq, Repr

/-- Result of a fallible operation: a value or a raised exception. -/
inductive Outcome (α : Type) where
  | ok (value : α)
  | error (e : PyError)
deriving DecidableEq, Repr

/-- `document.get('objectPath')` followed by Python truthiness: `None`
and the empty string both count as "no path". -/
def getObjectPath (r : ImageRecord) : Option String :=
  match r.objectPath with
  | some p => if p = "" then none else some p
  | none => none

/-- `bson.ObjectId(document_id)`: accepts exactly 24 hex characters,
otherwise raises (modelled as `none`). -/
def isHexChar (c : Char) : Bool :=
  c.isDigit || ('a' ≤ c && c ≤ 'f')

def hexVal (c : Char) : Nat :=
  if c.isDigit then c.toNat - '0'.toNat else c.toNat - 'a'.toNat + 10

def parseObjectId (documentId : String) : Option Nat :=
  if documentId.length == 24 && documentId.toList.all isHexChar then
    some (documentId.toList.foldl (fun acc c => acc * 16 + hexVal c) 0)
  else
    none

/-- `delete_gcs_object(bucket, object_path)`: one deletion attempt,
returning `(success, error_message)` as values, never raising. -/
def delete_gcs_object (s : DeletionState) (objectPath : String) :
    DeletionState × Bool × Option String :=
  if s.gcsOk objectPath then
    ({ s with gcsAttempted := s.gcsAttempted ++ [objectPath],
              gcsDeleted := s.gcsDeleted ++ [objectPath] }, true, none)
  else
    ({ s with gcsAttempted := s.gcsAttempted ++ [objectPath] }, false,
     some ("Failed to delete " ++ objectPath))

/-- `delete_gcs_objects_batch(object_paths)`: attempts every path exactly
once and aggregates `(success_count, errors)`.  The Python version runs the
attempts in a worker pool and aggregates after all complete; the aggregate
counts are order-independent, so the list is processed sequentially here. -/
def delete_gcs_objects_batch : DeletionState → List String → DeletionState × Nat × List String
  | s, [] => (s, 0, [])
  | s, path :: rest =>
    let step := delete_gcs_object s path
    let rest_result := delete_gcs_objects_batch step.1 rest
    if step.2.1 then
      (rest_result.1, rest_result.2.1 + 1, rest_result.2.2)
    else
      (rest_result.1, rest_result.2.1, step.2.2.getD "" :: rest_result.2.2)

/-- The audit document built by `log_deletion_audit`, field for field. -/
def mkAudit (now : Nat) (userId operationType : String)
    (target : List (String × String)) (deletedCount gcsDeletedCount : Nat)
    (success : Bool) (errors : List String) : AuditRecord :=
  { timestamp := now, userId := userId, operationType := operationType,
    target := target, deletedCount := deletedCount,
    gcsDeletedCount := gcsDeletedCount, success := success, errors := errors,
    partSuccess := decide (0 < gcsDeletedCount ∧ gcsDeletedCount < deletedCount) }

/-- `log_deletion_audit(...)`: inserts one audit document; an insert
failure is swallowed (the state is returned unchanged, nothing is
raised). -/
def log_deletion_audit (s : DeletionState) (userId operationType : String)
    (target : List (String × String)) (deletedCount gcsDeletedCount : Nat)
    (success : Bool) (errors : List String) : DeletionState :=
  if s.auditSinkOk then
    { s with auditLog := s.auditLog ++
        [mkAudit s.now userId operationType target deletedCount gcsDeletedCount success errors] }
  else
    s

/-- The `$set` document applied by `soft_delete_documents`. -/
def soft_update (userId : String) (now : Nat) (r : ImageRecord) : ImageRecord :=
  { r with deletedAt := some now, deletedBy := some userId, isDeleted := true }

/-- `soft_delete_documents(collection, filter_query, user_id)`: an
`update_many` setting the soft-delete fields; returns `modified_count`,
i.e. the number of matched documents whose stored fields actually
changed. -/
def soft_delete_documents (s : DeletionState) (filterQuery : ImageRecord → Bool)
    (userId : String) : DeletionState × Nat :=
  let newRecords := s.records.map fun r =>
    if filterQuery r then soft_update userId s.now r else r
  let modifiedCount :=
    (s.records.filter fun r =>
      filterQuery r && decide (soft_update userId s.now r ≠ r)).length
  ({ s with records := newRecords }, modifiedCount)

/-- `hard_delete_documents(collection, filter_query)`: a `delete_many`;
returns `deleted_count`. -/
def hard_delete_documents (s : DeletionState) (filterQuery : ImageRecord → Bool) :
    DeletionState × Nat :=
  let newRecords := s.records.filter fun r => !(filterQuery r)
  ({ s with records := newRecords }, (s.records.filter filterQuery).length)

/-- `delete_image_transaction(collection, document_id, user_id)`. -/
structure DeleteImageResult where
  deletedCount : Nat
  gcsDeletedCount : Nat
  deletedDocument : ImageRecord
deriving DecidableEq, Repr

def delete_image_transaction (cfg : Config) (s : DeletionState)
    (documentId userId : String) :
    DeletionState × Outcome DeleteImageResult :=
  match parseObjectId documentId with
  | none => (s, .error (.valueError "Invalid document ID"))
  | some objId =>
    match s.records.find? (fun r => r.id == objId) with
    | none => (s, .error (.valueError "Document not found"))
    | some document =>
      match getObjectPath document with
      | none => (s, .error (.valueError "Document has no objectPath"))
      | some objectPath =>
        let phase1 := delete_gcs_object s objectPath
        if phase1.2.1 then
          let phase2 :=
            if cfg.softDeleteEnabled then
              soft_delete_documents phase1.1 (fun r => r.id == objId) userId
            else
              hard_delete_documents phase1.1 (fun r => r.id == objId)
          if phase2.2 == 0 then
            (log_deletion_audit phase2.1 userId "image"
              [("documentId", documentId), ("objectPath", objectPath)]
              0 1 false ["MongoDB deletion failed after GCS deletion succeeded"],
             .error (.deletionError
               "MongoDB deletion failed after GCS deletion succeeded. GCS object has been orphaned."
               ["MongoDB deletion returned 0 count"]))
          else
            (log_deletion_audit phase2.1 userId "image"
              [("documentId", documentId), ("objectPath", objectPath)]
              phase2.2 1 true [],
             .ok { deletedCount := phase2.2, gcsDeletedCount := 1,
                   deletedDocument := document })
        else
          let errMsg := phase1.2.2.getD ""
          (log_deletion_audit phase1.1 userId "image"
            [("documentId", documentId), ("objectPath", objectPath)]
            0 0 false [errMsg],
           .error (.deletionError ("GCS deletion failed: " ++ errMsg) [errMsg]))

/-- `delete_multiple_images_transaction(collection, filter_query, user_id,
operation_type, target_info)`. -/
structure DeleteSetResult where
  deletedCount : Nat
  gcsDeletedCount : Nat
  expectedCount : Nat
  deletedImages : List ImageRecord
deriving DecidableEq, Repr

def delete_multiple_images_transaction (cfg : Config) (s : DeletionState)
    (filterQuery : ImageRecord → Bool) (userId operationType : String)
    (targetInfo : List (String × String)) :
    DeletionState × Outcome DeleteSetResult :=
  let images := s.records.filter filterQuery
  if images.isEmpty then
    (s, .error (.valueError ("No images found for " ++ operationType)))
  else
    let expectedCount := images.length
    let objectPaths := images.filterMap getObjectPath
    let batch := delete_gcs_objects_batch s objectPaths
    let gcsDeleted := batch.2.1
    let gcsErrors := batch.2.2
    if gcsErrors.isEmpty then
      let phase3 :=
        if cfg.softDeleteEnabled then
          soft_delete_documents batch.1 filterQuery userId
        else
          hard_delete_documents batch.1 filterQuery
      if phase3.2 != expectedCount then
        let warningMsg := "Count mismatch: expected " ++ toString expectedCount ++
          ", deleted " ++ toString phase3.2
        (log_deletion_audit phase3.1 userId operationType targetInfo
           phase3.2 gcsDeleted false [warningMsg],
         .error (.deletionError warningMsg [warningMsg]))
      else
        (log_deletion_audit phase3.1 userId operationType targetInfo
           phase3.2 gcsDeleted true [],
         .ok { deletedCount := phase3.2, gcsDeletedCount := gcsDeleted,
               expectedCount := expectedCount, deletedImages := images })
    else
      let afterLog := log_deletion_audit batch.1 userId operationType targetInfo
        0 gcsDeleted false gcsErrors
      if gcsDeleted > 0 then
        (afterLog, .error (.deletionError
          ("Partial GCS deletion: " ++ toString gcsDeleted ++ "/" ++
           toString objectPaths.length ++ " succeeded. " ++
           toString gcsErrors.length ++
           " failed. Aborting MongoDB deletion to prevent data inconsistency.")
          gcsErrors))
      else
        (afterLog, .error (.deletionError
          "All GCS deletions failed. Aborting MongoDB deletion." gcsErrors))

/-- The Mongo filter used twice by `cleanup_expired_soft_deletes`:
`{isDeleted: true, deletedAt: {$lt: cutoff}}` with
`cutoff = now - retention`. -/
def expired_filter (now retentionDays : Nat) (r : ImageRecord) : Bool :=
  r.isDeleted && (match r.deletedAt with
    | some t => decide (t < now - retentionDays)
    | none => false)

/-- `cleanup_expired_soft_deletes(collection)`. -/
def cleanup_expired_soft_deletes (cfg : Config) (s : DeletionState) :
    DeletionState × Nat :=
  if !cfg.softDeleteEnabled then
    (s, 0)
  else
    let expiredDocs := s.records.filter (expired_filter s.now cfg.softDeleteRetentionDays)
    if expiredDocs.isEmpty then
      (s, 0)
    else
      let objectPaths := expiredDocs.filterMap getObjectPath
      let afterGcs := delete_gcs_objects_batch s objectPaths
      hard_delete_documents afterGcs.1 (expired_filter s.now cfg.softDeleteRetentionDays)

/-! ### Concrete fixtures used to instantiate the theorems -/

def cfgHard : Config := { softDeleteEnabled := false, softDeleteRetentionDays := 30 }

def cfgSoft : Config := { softDeleteEnabled := true, softDeleteRetentionDays := 30 }

/-- A fresh record with a path, id 1. -/
def recA : ImageRecord :=
  { id := 1, objectPath := some "pics/a", isDeleted := false,
    deletedAt := none, deletedBy := none }

/-- 24-hex-character document id parsing to 1. -/
def docId1 : String := "000000000000000000000001"

/-- A bucket where every deletion fails. -/
def exStDown : DeletionState :=
  { records := [recA], gcsOk := fun _ => false, gcsAttempted := [],
    gcsDeleted := [], auditSinkOk := true, auditLog := [], now := 100 }

/-- Two records with paths "a" and "b"; only "a" can be deleted. -/
def exStHalf : DeletionState :=
  { records := [{ id := 1, objectPath := some "a", isDeleted := false,
                  deletedAt := none, deletedBy := none },
                { id := 2, objectPath := some "b", isDeleted := false,
                  deletedAt := none, deletedBy := none }],
    gcsOk := fun p => p == "a", gcsAttempted := [], gcsDeleted := [],
    auditSinkOk := true, auditLog := [], now := 100 }

/-- Seven records with paths "p1".."p7"; only "p1" and "p2" can be
deleted. -/
def exStSeven : DeletionState :=
  { records := [{ id := 1, objectPath := some "p1", isDeleted := false,
                  deletedAt := none, deletedBy := none },
                { id := 2, objectPath := some "p2", isDeleted := false,
                  deletedAt := none, deletedBy := none },
                { id := 3, objectPath := some "p3", isDeleted := false,
                  deletedAt := none, deletedBy := none },
                { id := 4, objectPath := some "p4", isDeleted := false,
                  deletedAt := none, deletedBy := none },
                { id := 5, objectPath := some "p5", isDeleted := false,
                  deletedAt := none, deletedBy := none },
                { id := 6, objectPath := some "p6", isDeleted := false,
                  deletedAt := none, deletedBy := none },
                { id := 7, objectPath := some "p7", isDeleted := false,
                  deletedAt := none, deletedBy := none }],
    gcsOk := fun p => p == "p1" || p == "p2", gcsAttempted := [],
    gcsDeleted := [], auditSinkOk := true, auditLog := [], now := 100 }

/-- One record already soft-deleted by "alice" at the current clock value,
in a healthy bucket: re-soft-deleting it modifies zero documents. -/
def exStOrphan : DeletionState :=
  { records := [{ id := 1, objectPath := some "pics/a", isDeleted := true,
                  deletedAt := some 100, deletedBy := some "alice" }],
    gcsOk := fun _ => true, gcsAttempted := [], gcsDeleted := [],
    auditSinkOk := true, auditLog := [], now := 100 }

/-- Two records, one already soft-deleted by "u" at the current clock
value: soft-deleting both modifies only one document. -/
def exStMismatch : DeletionState :=
  { records := [{ id := 1, objectPath := some "a", isDeleted := true,
                  deletedAt := some 100, deletedBy := some "u" },
                { id := 2, objectPath := some "b", isDeleted := false,
                  deletedAt := none, deletedBy := none }],
    gcsOk := fun _ => true, gcsAttempted := [], gcsDeleted := [],
    auditSinkOk := true, auditLog := [], now := 100 }

/-- Two records, the second without an object path, in a healthy bucket. -/
def exStNoPath : DeletionState :=
  { records := [{ id := 1, objectPath := some "a", isDeleted := false,
                  deletedAt := none, deletedBy := none },
                { id := 2, objectPath := none, isDeleted := false,
                  deletedAt := none, deletedBy := none }],
    gcsOk := fun _ => true, gcsAttempted := [], gcsDeleted := [],
    auditSinkOk := true, auditLog := [], now := 100 }

/-! ### State-threading lemmas for the embedded helpers -/

theorem gcs_object_records (s : DeletionState) (p : String) :
    (delete_gcs_object s p).1.records = s.records := by
  unfold delete_gcs_object
  by_cases h : s.gcsOk p <;> simp [h]

theorem gcs_object_auditLog (s : DeletionState) (p : String) :
    (delete_gcs_object s p).1.auditLog = s.auditLog := by
  unfold delete_gcs_object
  by_cases h : s.gcsOk p <;> simp [h]

theorem gcs_object_auditSinkOk (s : DeletionState) (p : String) :
    (delete_gcs_object s p).1.auditSinkOk = s.auditSinkOk := by
  unfold delete_gcs_object
  by_cases h : s.gcsOk p <;> simp [h]

theorem gcs_object_now (s : DeletionState) (p : String) :
    (delete_gcs_object s p).1.now = s.now := by
  unfold delete_gcs_object
  by_cases h : s.gcsOk p <;> simp [h]

theorem gcs_object_gcsOk (s : DeletionState) (p : String) :
    (delete_gcs_object s p).1.gcsOk = s.gcsOk := by
  unfold delete_gcs_object
  by_cases h : s.gcsOk p <;> simp [h]

theorem gcs_object_attempted (s : DeletionState) (p : String) :
    (delete_gcs_object s p).1.gcsAttempted = s.gcsAttempted ++ [p] := by
  unfold delete_gcs_object
  by_cases h : s.gcsOk p <;> simp [h]

theorem batch_cons (s : DeletionState) (p : String) (rest : List String) :
    delete_gcs_objects_batch s (p :: rest) =
      (let step := delete_gcs_object s p
       let rest_result := delete_gcs_objects_batch step.1 rest
       if step.2.1 then
         (rest_result.1, rest_result.2.1 + 1, rest_result.2.2)
       else
         (rest_result.1, rest_result.2.1, step.2.2.getD "" :: rest_result.2.2)) := rfl

theorem batch_cons_fst (s : DeletionState) (p : String) (rest : List String) :
    (delete_gcs_objects_batch s (p :: rest)).1 =
      (delete_gcs_objects_batch (delete_gcs_object s p).1 rest).1 := by
  rw [batch_cons]
  by_cases h : (delete_gcs_object s p).2.1 <;> simp [h]

theorem batch_fst (paths : List String) : ∀ s : DeletionState,
    (delete_gcs_objects_batch s paths).1.records = s.records ∧
    (delete_gcs_objects_batch s paths).1.auditLog = s.auditLog ∧
    (delete_gcs_objects_batch s paths).1.auditSinkOk = s.auditSinkOk ∧
    (delete_gcs_objects_batch s paths).1.now = s.now ∧
    (delete_gcs_objects_batch s paths).1.gcsOk = s.gcsOk ∧
    (delete_gcs_objects_batch s paths).1.gcsAttempted = s.gcsAttempted ++ paths := by
  induction paths with
  | nil => intro s; simp [delete_gcs_objects_batch]
  | cons p rest ih =>
    intro s
    obtain ⟨i1, i2, i3, i4, i5, i6⟩ := ih (delete_gcs_object s p).1
    refine ⟨?_, ?_, ?_, ?_, ?_, ?_⟩ <;> rw [batch_cons_fst]
    · rw [i1, gcs_object_records]
    · rw [i2, gcs_object_auditLog]
    · rw [i3, gcs_object_auditSinkOk]
    · rw [i4, gcs_object_now]
    · rw [i5, gcs_object_gcsOk]
    · rw [i6, gcs_object_attempted]
      simp

theorem batch_count (paths : List String) : ∀ s : DeletionState,
    (delete_gcs_objects_batch s paths).2.1 +
      (delete_gcs_objects_batch s paths).2.2.length = paths.length := by
  induction paths with
  | nil => intro s; simp [delete_gcs_objects_batch]
  | cons p rest ih =>
    intro s
    rw [batch_cons s p rest]
    have ihs := ih (delete_gcs_object s p).1
    by_cases h : (delete_gcs_object s p).2.1 <;> simp [h] <;> omega

theorem log_fields (s : DeletionState) (u op : String) (tgt : List (String × String))
    (dc gc : Nat) (succ : Bool) (errs : List String) :
    (log_deletion_audit s u op tgt dc gc succ errs).records = s.records ∧
    (log_deletion_audit s u op tgt dc gc succ errs).auditLog =
      (if s.auditSinkOk then s.auditLog ++ [mkAudit s.now u op tgt dc gc succ errs]
       else s.auditLog) := by
  unfold log_deletion_audit
  by_cases h : s.auditSinkOk <;> simp [h]

theorem soft_fields (s : DeletionState) (f : ImageRecord → Bool) (u : String) :
    (soft_delete_documents s f u).1.auditLog = s.auditLog ∧
    (soft_delete_documents s f u).1.auditSinkOk = s.auditSinkOk ∧
    (soft_delete_documents s f u).1.now = s.now ∧
    (soft_delete_documents s f u).1.gcsAttempted = s.gcsAttempted := by
  exact ⟨rfl, rfl, rfl, rfl⟩

theorem hard_fields (s : DeletionState) (f : ImageRecord → Bool) :
    (hard_delete_documents s f).1.auditLog = s.auditLog ∧
    (hard_delete_documents s f).1.auditSinkOk = s.auditSinkOk ∧
    (hard_delete_documents s f).1.now = s.now ∧
    (hard_delete_documents s f).1.gcsAttempted = s.gcsAttempted := by
  exact ⟨rfl, rfl, rfl, rfl⟩

theorem soft_count_congr (s t : DeletionState) (f : ImageRecord → Bool) (u : String)
    (hrec : t.records = s.records) (hnow : t.now = s.now) :
    (soft_delete_documents t f u).2 = (soft_delete_documents s f u).2 := by
  simp [soft_delete_documents, hrec, hnow]

theorem hard_count_congr (s t : DeletionState) (f : ImageRecord → Bool)
    (hrec : t.records = s.records) :
    (hard_delete_documents t f).2 = (hard_delete_documents s f).2 := by
  simp [hard_delete_documents, hrec]

theorem soft_records_of_count_zero (s : DeletionState) (f : ImageRecord → Bool)
    (u : String) (h : (soft_delete_documents s f u).2 = 0) :
    (soft_delete_documents s f u).1.records = s.records := by
  have hnil : (s.records.filter fun r =>
      f r && decide (soft_update u s.now r ≠ r)) = [] :=
    List.length_eq_zero.mp h
  have hall := List.filter_eq_nil_iff.mp hnil
  show (s.records.map fun r => if f r then soft_update u s.now r else r) = s.records
  have : ∀ r ∈ s.records, (if f r then soft_update u s.now r else r) = r := by
    intro r hr
    by_cases hf : f r
    · have := hall r hr
      simp [hf] at this
      simp [hf, this]
    · simp [hf]
  calc (s.records.map fun r => if f r then soft_update u s.now r else r)
      = s.records.map id := List.map_congr_left (by simpa using this)
    _ = s.records := List.map_id s.records

theorem find_filter_ne_nil (l : List ImageRecord) (p : ImageRecord → Bool)
    (a : ImageRecord) (h : l.find? p = some a) : l.filter p ≠ [] := by
  have hmem : a ∈ l := List.mem_of_find?_eq_some h
  have hp : p a := List.find?_some h
  intro hnil
  exact absurd hp (List.filter_eq_nil_iff.mp hnil a hmem)

/-! ### Claim theorems -/

/-- Claim C1: for a single-image deletion where the record resolves and has
an object path but the object-store deletion fails, the operation raises
`DeletionError` ("GCS deletion failed"), leaves the record store unchanged
(the record is still found afterwards), and appends exactly one failed
audit entry with record-deleted count 0 and object-deleted count 0
carrying the failure reason. -/
theorem single_gcs_fail_aborts (cfg : Config) (s : DeletionState)
    (documentId userId : String) (objId : Nat) (document : ImageRecord)
    (objectPath : String)
    (hsink : s.auditSinkOk = true)
    (hparse : parseObjectId documentId = some objId)
    (hfind : s.records.find? (fun r => r.id == objId) = some document)
    (hpath : getObjectPath document = some objectPath)
    (hgcs : s.gcsOk objectPath = false) :
    (delete_image_transaction cfg s documentId userId).2 =
      .error (.deletionError ("GCS deletion failed: Failed to delete " ++ objectPath)
        ["Failed to delete " ++ objectPath]) ∧
    (delete_image_transaction cfg s documentId userId).1.records = s.records ∧
    (delete_image_transaction cfg s documentId userId).1.records.find?
      (fun r => r.id == objId) = some document ∧
    (delete_image_transaction cfg s documentId userId).1.auditLog =
      s.auditLog ++
        [mkAudit s.now userId "image"
          [("documentId", documentId), ("objectPath", objectPath)]
          0 0 false ["Failed to delete " ++ objectPath]] := by
  unfold delete_image_transaction
  simp only [hparse, hfind, hpath, delete_gcs_object, hgcs, Bool.false_eq_true,
    if_false]
  simp [log_deletion_audit, hsink, hfind]
  rw [← String.append_assoc]
  exact congrArg (fun x => x ++ objectPath) rfl

theorem single_gcs_fail_aborts_witness :
    parseObjectId docId1 = some 1 ∧
    exStDown.gcsOk "pics/a" = false ∧
    (delete_image_transaction cfgHard exStDown docId1 "alice").1.records =
      exStDown.records ∧
    (delete_image_transaction cfgHard exStDown docId1 "alice").1.auditLog =
      exStDown.auditLog ++
        [mkAudit 100 "alice" "image" [("documentId", docId1), ("objectPath", "pics/a")]
          0 0 false ["Failed to delete pics/a"]] :=
  ⟨rfl, rfl,
    (single_gcs_fail_aborts cfgHard exStDown docId1 "alice" 1 recA "pics/a"
      rfl rfl rfl rfl rfl).2.1,
    (single_gcs_fail_aborts cfgHard exStDown docId1 "alice" 1 recA "pics/a"
      rfl rfl rfl rfl rfl).2.2.2⟩

/-- Claim C2: for a set deletion where the batch object-store deletion
reports at least one failure, the operation appends one failed audit
entry, raises `DeletionError` (the all-failed message when zero object
deletions succeeded, the partial message when some succeeded), and leaves
the record store unchanged: `find(filter)` afterwards still returns every
originally matched record. -/
theorem set_gcs_fail_aborts (cfg : Config) (s : DeletionState)
    (filterQuery : ImageRecord → Bool) (userId operationType : String)
    (targetInfo : List (String × String)) (cnt : Nat) (errs : List String)
    (hsink : s.auditSinkOk = true)
    (hne : s.records.filter filterQuery ≠ [])
    (hcnt : (delete_gcs_objects_batch s
      ((s.records.filter filterQuery).filterMap getObjectPath)).2.1 = cnt)
    (herrs : (delete_gcs_objects_batch s
      ((s.records.filter filterQuery).filterMap getObjectPath)).2.2 = errs)
    (hfail : errs ≠ []) :
    (delete_multiple_images_transaction cfg s filterQuery userId
      operationType targetInfo).1.records = s.records ∧
    (delete_multiple_images_transaction cfg s filterQuery userId
      operationType targetInfo).1.records.filter filterQuery =
        s.records.filter filterQuery ∧
    (delete_multiple_images_transaction cfg s filterQuery userId
      operationType targetInfo).1.auditLog =
      s.auditLog ++ [mkAudit s.now userId operationType targetInfo 0 cnt false errs] ∧
    (cnt = 0 →
      (delete_multiple_images_transaction cfg s filterQuery userId
        operationType targetInfo).2 =
        .error (.deletionError "All GCS deletions failed. Aborting MongoDB deletion." errs)) ∧
    (0 < cnt →
      (delete_multiple_images_transaction cfg s filterQuery userId
        operationType targetInfo).2 =
        .error (.deletionError
          ("Partial GCS deletion: " ++ toString cnt ++ "/" ++
           toString ((s.records.filter filterQuery).filterMap getObjectPath).length ++
           " succeeded. " ++ toString errs.length ++
           " failed. Aborting MongoDB deletion to prevent data inconsistency.")
          errs)) := by
  obtain ⟨b1, b2, b3, b4, b5, b6⟩ :=
    batch_fst ((s.records.filter filterQuery).filterMap getObjectPath) s
  have hne' : (s.records.filter filterQuery).isEmpty = false :=
    List.isEmpty_eq_false.mpr hne
  have hfail' : ¬(errs.isEmpty = true) := by
    simp [List.isEmpty_eq_false.mpr hfail]
  unfold delete_multiple_images_transaction
  simp only [hne', Bool.false_eq_true, if_false, hcnt, herrs]
  rw [if_neg hfail']
  refine ⟨?_, ?_, ?_, ?_, ?_⟩
  · by_cases h : cnt > 0 <;>
      simp [h, log_deletion_audit, b1, b2, b3, b4, hsink]
  · by_cases h : cnt > 0 <;>
      simp [h, log_deletion_audit, b1, b2, b3, b4, hsink]
  · by_cases h : cnt > 0 <;>
      simp [h, log_deletion_audit, b1, b2, b3, b4, hsink]
  · intro h0
    subst h0
    simp
  · intro h0
    simp [h0]

theorem set_gcs_fail_aborts_witness :
    exStHalf.records.filter (fun _ => true) ≠ [] ∧
    (delete_gcs_objects_batch exStHalf
      ((exStHalf.records.filter (fun _ => true)).filterMap getObjectPath)).2.2 =
      ["Failed to delete b"] ∧
    (delete_multiple_images_transaction cfgHard exStHalf (fun _ => true)
      "u" "banana" []).1.records = exStHalf.records ∧
    (delete_multiple_images_transaction cfgHard exStHalf (fun _ => true)
      "u" "banana" []).2 =
      .error (.deletionError
        ("Partial GCS deletion: " ++ toString 1 ++ "/" ++
         toString ((exStHalf.records.filter (fun _ => true)).filterMap getObjectPath).length ++
         " succeeded. " ++ toString (["Failed to delete b"] : List String).length ++
         " failed. Aborting MongoDB deletion to prevent data inconsistency.")
        ["Failed to delete b"]) := by
  have h := set_gcs_fail_aborts cfgHard exStHalf (fun _ => true) "u" "banana" []
    1 ["Failed to delete b"] rfl (by decide) rfl rfl (by decide)
  exact ⟨by decide, rfl, h.1, h.2.2.2.2 (by decide)⟩

/-- Claim C3 counterexample: an invocation of the single-image entry point
that fails the identifier precondition (InvalidIdentifier) returns control
with zero audit entries written, refuting "every invocation writes exactly
one Audit Entry". -/
theorem audit_once_counterexample :
    (delete_image_transaction cfgHard exStDown "zz" "u").2 =
      .error (.valueError "Invalid document ID") ∧
    (delete_image_transaction cfgHard exStDown "zz" "u").1.auditLog = [] ∧
    (delete_image_transaction cfgHard exStDown "zz" "u").1.auditLog.length ≠ 1 :=
  ⟨rfl, rfl, by decide⟩

/-- Claim C3 amended: an invocation of either orchestrator entry point
that passes its precondition checks (valid identifier, record found,
non-empty object path; non-empty match set) writes exactly one audit
entry before returning, provided the audit sink is up; an invocation that
fails a precondition (it raises `ValueError`) returns with the state,
audit log included, completely unchanged. -/
theorem audit_once_amended :
    (∀ (cfg : Config) (s : DeletionState) (documentId userId : String)
       (objId : Nat) (document : ImageRecord) (objectPath : String),
       s.auditSinkOk = true →
       parseObjectId documentId = some objId →
       s.records.find? (fun r => r.id == objId) = some document →
       getObjectPath document = some objectPath →
       (delete_image_transaction cfg s documentId userId).1.auditLog.length =
         s.auditLog.length + 1) ∧
    (∀ (cfg : Config) (s : DeletionState) (documentId userId m : String),
       (delete_image_transaction cfg s documentId userId).2 =
         .error (.valueError m) →
       (delete_image_transaction cfg s documentId userId).1 = s) ∧
    (∀ (cfg : Config) (s : DeletionState) (filterQuery : ImageRecord → Bool)
       (userId operationType : String) (targetInfo : List (String × String)),
       s.auditSinkOk = true →
       s.records.filter filterQuery ≠ [] →
       (delete_multiple_images_transaction cfg s filterQuery userId
         operationType targetInfo).1.auditLog.length = s.auditLog.length + 1) ∧
    (∀ (cfg : Config) (s : DeletionState) (filterQuery : ImageRecord → Bool)
       (userId operationType : String) (targetInfo : List (String × String)),
       s.records.filter filterQuery = [] →
       (delete_multiple_images_transaction cfg s filterQuery userId
         operationType targetInfo).1 = s) := by
  refine ⟨?_, ?_, ?_, ?_⟩
  · intro cfg s documentId userId objId document objectPath hsink hparse hfind hpath
    unfold delete_image_transaction
    simp only [hparse, hfind, hpath]
    cases hg : s.gcsOk objectPath
    · simp [delete_gcs_object, hg, log_deletion_audit, hsink]
    · simp only [delete_gcs_object, hg, if_true]
      cases hs : cfg.softDeleteEnabled <;>
        simp only [hs, if_true, Bool.false_eq_true, if_false] <;>
        split <;>
        simp [log_deletion_audit, soft_delete_documents, hard_delete_documents, hsink]
  · intro cfg s documentId userId m h
    unfold delete_image_transaction at h ⊢
    cases hp : parseObjectId documentId with
    | none => simp [hp]
    | some objId =>
      cases hf : s.records.find? (fun r => r.id == objId) with
      | none => simp [hp, hf]
      | some document =>
        cases hq : getObjectPath document with
        | none => simp [hp, hf, hq]
        | some objectPath =>
          exfalso
          simp only [hp, hf, hq] at h
          cases hg : s.gcsOk objectPath
          · simp [delete_gcs_object, hg] at h
          · simp only [delete_gcs_object, hg, if_true] at h
            cases hs : cfg.softDeleteEnabled <;>
              simp only [hs, if_true, Bool.false_eq_true, if_false] at h <;>
              split at h <;> simp at h
  · intro cfg s filterQuery userId operationType targetInfo hsink hne
    obtain ⟨b1, b2, b3, b4, b5, b6⟩ :=
      batch_fst ((s.records.filter filterQuery).filterMap getObjectPath) s
    have hne' : (s.records.filter filterQuery).isEmpty = false :=
      List.isEmpty_eq_false.mpr hne
    unfold delete_multiple_images_transaction
    simp only [hne', Bool.false_eq_true, if_false]
    split
    · cases hs : cfg.softDeleteEnabled <;>
        simp only [hs, if_true, Bool.false_eq_true, if_false] <;>
        split <;>
        simp [log_deletion_audit, soft_delete_documents, hard_delete_documents,
          b1, b2, b3, b4, hsink]
    · split <;>
        simp [log_deletion_audit, b1, b2, b3, b4, hsink]
  · intro cfg s filterQuery userId operationType targetInfo h
    unfold delete_multiple_images_transaction
    simp [List.isEmpty_iff, h]

theorem audit_once_amended_witness :
    exStDown.auditSinkOk = true ∧
    parseObjectId docId1 = some 1 ∧
    (delete_image_transaction cfgHard exStDown docId1 "alice").1.auditLog.length =
      exStDown.auditLog.length + 1 ∧
    (delete_multiple_images_transaction cfgHard exStHalf (fun _ => true)
      "u" "banana" []).1.auditLog.length = exStHalf.auditLog.length + 1 :=
  ⟨rfl, rfl,
    audit_once_amended.1 cfgHard exStDown docId1 "alice" 1 recA "pics/a"
      rfl rfl rfl rfl,
    audit_once_amended.2.2.1 cfgHard exStHalf (fun _ => true) "u" "banana" []
      rfl (by decide)⟩

/-- Claim C4 counterexample: a set deletion matching 7 records in which
exactly 2 object deletions succeed writes its audit entry with the
partial-success flag false, although 0 < 2 < 7 (the expected count of the
operation), refuting the claimed iff. -/
theorem audit_flag_counterexample :
    (exStSeven.records.filter (fun _ => true)).length = 7 ∧
    (delete_multiple_images_transaction cfgHard exStSeven (fun _ => true)
      "u" "banana" []).1.auditLog.length = 1 ∧
    ((delete_multiple_images_transaction cfgHard exStSeven (fun _ => true)
      "u" "banana" []).1.auditLog.head?).map AuditRecord.gcsDeletedCount =
        some 2 ∧
    ((delete_multiple_images_transaction cfgHard exStSeven (fun _ => true)
      "u" "banana" []).1.auditLog.head?).map AuditRecord.partSuccess =
        some false ∧
    (0 < 2 ∧ 2 < 7) :=
  ⟨rfl, rfl, rfl, rfl, by decide⟩

/-- Claim C4 amended: in every audit entry written by
`log_deletion_audit`, the partial-success flag is true exactly when the
object-store deletion count is positive and strictly below the
record-store deletion count recorded in the same entry (not the expected
count of the operation). -/
theorem audit_flag_amended (s : DeletionState) (userId operationType : String)
    (target : List (String × String)) (deletedCount gcsDeletedCount : Nat)
    (success : Bool) (errors : List String)
    (hsink : s.auditSinkOk = true) :
    (log_deletion_audit s userId operationType target deletedCount
      gcsDeletedCount success errors).auditLog =
      s.auditLog ++ [mkAudit s.now userId operationType target deletedCount
        gcsDeletedCount success errors] ∧
    ((mkAudit s.now userId operationType target deletedCount gcsDeletedCount
      success errors).partSuccess = true ↔
      (0 < gcsDeletedCount ∧ gcsDeletedCount < deletedCount)) := by
  constructor
  · simp [log_deletion_audit, hsink]
  · simp [mkAudit]

theorem audit_flag_amended_witness :
    exStDown.auditSinkOk = true ∧
    ((mkAudit 100 "u" "banana" [] 0 2 true []).partSuccess = true ↔
      (0 < 2 ∧ 2 < 0)) :=
  ⟨rfl, (audit_flag_amended exStDown "u" "banana" [] 0 2 true [] rfl).2⟩

/-- Claim C5: for a single-image deletion where the object-store deletion
succeeds but the record-store delete (or soft-delete) reports zero
records affected, the operation raises the orphaned-object
`DeletionError`, writes one audit entry with `gcsDeletedCount = 1` and
`deletedCount = 0`, and performs no further record-store mutation. -/
theorem single_orphan (cfg : Config) (s : DeletionState)
    (documentId userId : String) (objId : Nat) (document : ImageRecord)
    (objectPath : String)
    (hsink : s.auditSinkOk = true)
    (hparse : parseObjectId documentId = some objId)
    (hfind : s.records.find? (fun r => r.id == objId) = some document)
    (hpath : getObjectPath document = some objectPath)
    (hgcs : s.gcsOk objectPath = true)
    (hcnt : (if cfg.softDeleteEnabled then
        (soft_delete_documents s (fun r => r.id == objId) userId).2
      else
        (hard_delete_documents s (fun r => r.id == objId)).2) = 0) :
    (delete_image_transaction cfg s documentId userId).2 =
      .error (.deletionError
        "MongoDB deletion failed after GCS deletion succeeded. GCS object has been orphaned."
        ["MongoDB deletion returned 0 count"]) ∧
    (delete_image_transaction cfg s documentId userId).1.records = s.records ∧
    (delete_image_transaction cfg s documentId userId).1.auditLog =
      s.auditLog ++
        [mkAudit s.now userId "image"
          [("documentId", documentId), ("objectPath", objectPath)] 0 1 false
          ["MongoDB deletion failed after GCS deletion succeeded"]] := by
  unfold delete_image_transaction
  simp only [hparse, hfind, hpath, delete_gcs_object, hgcs, if_true]
  cases hs : cfg.softDeleteEnabled
  · exfalso
    rw [hs] at hcnt
    simp only [Bool.false_eq_true, if_false, hard_delete_documents] at hcnt
    exact find_filter_ne_nil s.records (fun r => r.id == objId) document hfind
      (List.length_eq_zero.mp hcnt)
  · have hcnt' : (soft_delete_documents s (fun r => r.id == objId) userId).2 = 0 := by
      rw [hs] at hcnt
      simpa using hcnt
    have hcntP : (soft_delete_documents
        { s with gcsAttempted := s.gcsAttempted ++ [objectPath],
                 gcsDeleted := s.gcsDeleted ++ [objectPath] }
        (fun r => r.id == objId) userId).2 = 0 := by
      rw [soft_count_congr s
        { s with gcsAttempted := s.gcsAttempted ++ [objectPath],
                 gcsDeleted := s.gcsDeleted ++ [objectPath] }
        (fun r => r.id == objId) userId rfl rfl]
      exact hcnt'
    have hrec := soft_records_of_count_zero
      { s with gcsAttempted := s.gcsAttempted ++ [objectPath],
               gcsDeleted := s.gcsDeleted ++ [objectPath] }
      (fun r => r.id == objId) userId hcntP
    simp only [hs, if_true, hcntP]
    simp [log_deletion_audit, hsink, soft_delete_documents]
    simpa [soft_delete_documents] using hrec

theorem single_orphan_witness :
    exStOrphan.gcsOk "pics/a" = true ∧
    (if cfgSoft.softDeleteEnabled then
        (soft_delete_documents exStOrphan (fun r => r.id == 1) "alice").2
      else
        (hard_delete_documents exStOrphan (fun r => r.id == 1)).2) = 0 ∧
    (delete_image_transaction cfgSoft exStOrphan docId1 "alice").2 =
      .error (.deletionError
        "MongoDB deletion failed after GCS deletion succeeded. GCS object has been orphaned."
        ["MongoDB deletion returned 0 count"]) ∧
    (delete_image_transaction cfgSoft exStOrphan docId1 "alice").1.auditLog =
      exStOrphan.auditLog ++
        [mkAudit 100 "alice" "image"
          [("documentId", docId1), ("objectPath", "pics/a")] 0 1 false
          ["MongoDB deletion failed after GCS deletion succeeded"]] := by
  have h := single_orphan cfgSoft exStOrphan docId1 "alice" 1
    { id := 1, objectPath := some "pics/a", isDeleted := true,
      deletedAt := some 100, deletedBy := some "alice" }
    "pics/a" rfl rfl rfl rfl rfl (by decide)
  exact ⟨rfl, by decide, h.1, h.2.2⟩

/-- Claim C6: for a set deletion where every object-store deletion
succeeds but the record-store count differs from the number of records
matched in phase 1, the operation writes one failed audit entry whose
error string records both the expected and the actual count, and raises
the count-mismatch `DeletionError`. -/
theorem set_count_mismatch (cfg : Config) (s : DeletionState)
    (filterQuery : ImageRecord → Bool) (userId operationType : String)
    (targetInfo : List (String × String)) (gc dc : Nat)
    (hsink : s.auditSinkOk = true)
    (hne : s.records.filter filterQuery ≠ [])
    (herrs : (delete_gcs_objects_batch s
      ((s.records.filter filterQuery).filterMap getObjectPath)).2.2 = [])
    (hgc : (delete_gcs_objects_batch s
      ((s.records.filter filterQuery).filterMap getObjectPath)).2.1 = gc)
    (hdc : (if cfg.softDeleteEnabled then
        (soft_delete_documents s filterQuery userId).2
      else
        (hard_delete_documents s filterQuery).2) = dc)
    (hmm : dc ≠ (s.records.filter filterQuery).length) :
    (delete_multiple_images_transaction cfg s filterQuery userId
      operationType targetInfo).2 =
      .error (.deletionError
        ("Count mismatch: expected " ++
         toString (s.records.filter filterQuery).length ++ ", deleted " ++
         toString dc)
        ["Count mismatch: expected " ++
         toString (s.records.filter filterQuery).length ++ ", deleted " ++
         toString dc]) ∧
    (delete_multiple_images_transaction cfg s filterQuery userId
      operationType targetInfo).1.auditLog =
      s.auditLog ++
        [mkAudit s.now userId operationType targetInfo dc gc false
          ["Count mismatch: expected " ++
           toString (s.records.filter filterQuery).length ++ ", deleted " ++
           toString dc]] := by
  obtain ⟨b1, b2, b3, b4, b5, b6⟩ :=
    batch_fst ((s.records.filter filterQuery).filterMap getObjectPath) s
  have hne' : (s.records.filter filterQuery).isEmpty = false :=
    List.isEmpty_eq_false.mpr hne
  cases hs : cfg.softDeleteEnabled
  · have hdc0 : (hard_delete_documents s filterQuery).2 = dc := by
      simpa [hs] using hdc
    have hdcB : (hard_delete_documents (delete_gcs_objects_batch s
        ((s.records.filter filterQuery).filterMap getObjectPath)).1
        filterQuery).2 = dc := by
      rw [hard_count_congr s _ filterQuery b1]
      exact hdc0
    unfold delete_multiple_images_transaction
    simp only [hne', Bool.false_eq_true, if_false, herrs, List.isEmpty_nil,
      if_true, hs, hdcB, hgc]
    simp [hmm, log_deletion_audit, hard_delete_documents, b2, b3, b4, hsink]
  · have hdc0 : (soft_delete_documents s filterQuery userId).2 = dc := by
      simpa [hs] using hdc
    have hdcB : (soft_delete_documents (delete_gcs_objects_batch s
        ((s.records.filter filterQuery).filterMap getObjectPath)).1
        filterQuery userId).2 = dc := by
      rw [soft_count_congr s _ filterQuery userId b1 b4]
      exact hdc0
    unfold delete_multiple_images_transaction
    simp only [hne', Bool.false_eq_true, if_false, herrs, List.isEmpty_nil,
      if_true, hs, hdcB, hgc]
    simp [hmm, log_deletion_audit, soft_delete_documents, b2, b3, b4, hsink]

theorem set_count_mismatch_witness :
    exStMismatch.records.filter (fun _ => true) ≠ [] ∧
    (delete_gcs_objects_batch exStMismatch
      ((exStMismatch.records.filter (fun _ => true)).filterMap getObjectPath)).2.2 = [] ∧
    (if cfgSoft.softDeleteEnabled then
        (soft_delete_documents exStMismatch (fun _ => true) "u").2
      else
        (hard_delete_documents exStMismatch (fun _ => true)).2) = 1 ∧
    (delete_multiple_images_transaction cfgSoft exStMismatch (fun _ => true)
      "u" "banana" []).2 =
      .error (.deletionError
        ("Count mismatch: expected " ++
         toString (exStMismatch.records.filter (fun _ => true)).length ++
         ", deleted " ++ toString 1)
        ["Count mismatch: expected " ++
         toString (exStMismatch.records.filter (fun _ => true)).length ++
         ", deleted " ++ toString 1]) := by
  have h := set_count_mismatch cfgSoft exStMismatch (fun _ => true) "u"
    "banana" [] 2 1 rfl (by decide) rfl rfl rfl (by decide)
  exact ⟨by decide, rfl, rfl, h.1⟩

theorem log_records (s : DeletionState) (u op : String)
    (tgt : List (String × String)) (dc gc : Nat) (succ : Bool)
    (errs : List String) :
    (log_deletion_audit s u op tgt dc gc succ errs).records = s.records :=
  (log_fields s u op tgt dc gc succ errs).1

theorem batch_out_congr (paths : List String) : ∀ (s t : DeletionState),
    t.records = s.records → t.gcsOk = s.gcsOk → t.now = s.now →
    (delete_gcs_objects_batch t paths).2 = (delete_gcs_objects_batch s paths).2 := by
  induction paths with
  | nil => intro s t h1 h2 h3; rfl
  | cons p rest ih =>
    intro s t h1 h2 h3
    have hstep2 : (delete_gcs_object t p).2 = (delete_gcs_object s p).2 := by
      unfold delete_gcs_object
      rw [h2]
      cases hg : s.gcsOk p <;> simp [hg]
    have hrec : (delete_gcs_object t p).1.records = (delete_gcs_object s p).1.records := by
      rw [gcs_object_records, gcs_object_records, h1]
    have hok : (delete_gcs_object t p).1.gcsOk = (delete_gcs_object s p).1.gcsOk := by
      rw [gcs_object_gcsOk, gcs_object_gcsOk, h2]
    have hnow : (delete_gcs_object t p).1.now = (delete_gcs_object s p).1.now := by
      rw [gcs_object_now, gcs_object_now, h3]
    have ihs := ih (delete_gcs_object s p).1 (delete_gcs_object t p).1 hrec hok hnow
    rw [batch_cons, batch_cons]
    cases hg : (delete_gcs_object s p).2.1
    · have hgt : (delete_gcs_object t p).2.1 = false := by rw [hstep2]; exact hg
      simp [hg, hgt, ihs, hstep2]
    · have hgt : (delete_gcs_object t p).2.1 = true := by rw [hstep2]; exact hg
      simp [hg, hgt, ihs]

theorem image_out_congr (cfg : Config) (s t : DeletionState)
    (documentId userId : String)
    (h1 : t.records = s.records) (h2 : t.gcsOk = s.gcsOk) (h3 : t.now = s.now) :
    (delete_image_transaction cfg t documentId userId).2 =
      (delete_image_transaction cfg s documentId userId).2 ∧
    (delete_image_transaction cfg t documentId userId).1.records =
      (delete_image_transaction cfg s documentId userId).1.records := by
  unfold delete_image_transaction
  cases hp : parseObjectId documentId with
  | none => simp [h1]
  | some objId =>
    simp only [h1]
    cases hf : s.records.find? (fun r => r.id == objId) with
    | none => simp [h1]
    | some document =>
      cases hq : getObjectPath document with
      | none => simp [hq, h1]
      | some objectPath =>
        simp only [hq]
        have hstep2 : (delete_gcs_object t objectPath).2 =
            (delete_gcs_object s objectPath).2 := by
          unfold delete_gcs_object
          rw [h2]
          cases hg : s.gcsOk objectPath <;> simp [hg]
        have hrec : (delete_gcs_object t objectPath).1.records =
            (delete_gcs_object s objectPath).1.records := by
          rw [gcs_object_records, gcs_object_records, h1]
        have hnow : (delete_gcs_object t objectPath).1.now =
            (delete_gcs_object s objectPath).1.now := by
          rw [gcs_object_now, gcs_object_now, h3]
        cases hg : (delete_gcs_object s objectPath).2.1
        · have hgt : (delete_gcs_object t objectPath).2.1 = false := by
            rw [hstep2]; exact hg
          simp only [hg, hgt, Bool.false_eq_true, if_false]
          constructor
          · simp [hstep2]
          · simp [log_records, hrec]
        · have hgt : (delete_gcs_object t objectPath).2.1 = true := by
            rw [hstep2]; exact hg
          simp only [hg, hgt, if_true]
          cases hs : cfg.softDeleteEnabled
          · have hc := hard_count_congr (delete_gcs_object s objectPath).1
              (delete_gcs_object t objectPath).1 (fun r => r.id == objId) hrec
            simp only [hs, Bool.false_eq_true, if_false, hc]
            cases h0 : (hard_delete_documents (delete_gcs_object s objectPath).1
                (fun r => r.id == objId)).2 == 0 <;>
              simp only [h0, Bool.false_eq_true, if_false, if_true] <;>
              exact ⟨by trivial, by simp [log_records, hard_delete_documents, hrec]⟩
          · have hc := soft_count_congr (delete_gcs_object s objectPath).1
              (delete_gcs_object t objectPath).1 (fun r => r.id == objId) userId
              hrec hnow
            simp only [hs, if_true, hc]
            cases h0 : (soft_delete_documents (delete_gcs_object s objectPath).1
                (fun r => r.id == objId) userId).2 == 0 <;>
              simp only [h0, Bool.false_eq_true, if_false, if_true] <;>
              exact ⟨by trivial, by simp [log_records, soft_delete_documents, hrec, hnow]⟩

theorem set_out_congr (cfg : Config) (s t : DeletionState)
    (filterQuery : ImageRecord → Bool) (userId operationType : String)
    (targetInfo : List (String × String))
    (h1 : t.records = s.records) (h2 : t.gcsOk = s.gcsOk) (h3 : t.now = s.now) :
    (delete_multiple_images_transaction cfg t filterQuery userId
      operationType targetInfo).2 =
      (delete_multiple_images_transaction cfg s filterQuery userId
        operationType targetInfo).2 ∧
    (delete_multiple_images_transaction cfg t filterQuery userId
      operationType targetInfo).1.records =
      (delete_multiple_images_transaction cfg s filterQuery userId
        operationType targetInfo).1.records := by
  have hbatch := batch_out_congr
    ((s.records.filter filterQuery).filterMap getObjectPath) s t h1 h2 h3
  have hb1 : (delete_gcs_objects_batch t
      ((s.records.filter filterQuery).filterMap getObjectPath)).2.1 =
      (delete_gcs_objects_batch s
        ((s.records.filter filterQuery).filterMap getObjectPath)).2.1 := by
    rw [hbatch]
  have hb2 : (delete_gcs_objects_batch t
      ((s.records.filter filterQuery).filterMap getObjectPath)).2.2 =
      (delete_gcs_objects_batch s
        ((s.records.filter filterQuery).filterMap getObjectPath)).2.2 := by
    rw [hbatch]
  obtain ⟨bs1, bs2, bs3, bs4, bs5, bs6⟩ :=
    batch_fst ((s.records.filter filterQuery).filterMap getObjectPath) s
  obtain ⟨bt1, bt2, bt3, bt4, bt5, bt6⟩ :=
    batch_fst ((s.records.filter filterQuery).filterMap getObjectPath) t
  have hR : (delete_gcs_objects_batch t
      ((s.records.filter filterQuery).filterMap getObjectPath)).1.records =
      (delete_gcs_objects_batch s
        ((s.records.filter filterQuery).filterMap getObjectPath)).1.records := by
    rw [bt1, bs1, h1]
  have hN : (delete_gcs_objects_batch t
      ((s.records.filter filterQuery).filterMap getObjectPath)).1.now =
      (delete_gcs_objects_batch s
        ((s.records.filter filterQuery).filterMap getObjectPath)).1.now := by
    rw [bt4, bs4, h3]
  unfold delete_multiple_images_transaction
  simp only [h1]
  cases hne : (s.records.filter filterQuery).isEmpty
  · simp only [hne, Bool.false_eq_true, if_false, hb2]
    cases he : (delete_gcs_objects_batch s
        ((s.records.filter filterQuery).filterMap getObjectPath)).2.2.isEmpty
    · simp only [he, Bool.false_eq_true, if_false, hb1]
      by_cases h0 : (delete_gcs_objects_batch s
          ((s.records.filter filterQuery).filterMap getObjectPath)).2.1 > 0 <;>
        simp only [h0, if_true, if_false] <;>
        exact ⟨by trivial, by simp [log_records, bt1, bs1, h1]⟩
    · simp only [he, if_true]
      cases hs : cfg.softDeleteEnabled
      · have hc := hard_count_congr
          (delete_gcs_objects_batch s
            ((s.records.filter filterQuery).filterMap getObjectPath)).1
          (delete_gcs_objects_batch t
            ((s.records.filter filterQuery).filterMap getObjectPath)).1
          filterQuery hR
        simp only [hs, Bool.false_eq_true, if_false, hc, hb1]
        by_cases hmm : (hard_delete_documents (delete_gcs_objects_batch s
            ((s.records.filter filterQuery).filterMap getObjectPath)).1
            filterQuery).2 != (s.records.filter filterQuery).length <;>
          simp only [hmm, if_true, if_false, Bool.false_eq_true] <;>
          exact ⟨by trivial,
            by simp [log_records, hard_delete_documents, hR]⟩
      · have hc := soft_count_congr
          (delete_gcs_objects_batch s
            ((s.records.filter filterQuery).filterMap getObjectPath)).1
          (delete_gcs_objects_batch t
            ((s.records.filter filterQuery).filterMap getObjectPath)).1
          filterQuery userId hR hN
        simp only [hs, if_true, hc, hb1]
        by_cases hmm : (soft_delete_documents (delete_gcs_objects_batch s
            ((s.records.filter filterQuery).filterMap getObjectPath)).1
            filterQuery userId).2 != (s.records.filter filterQuery).length <;>
          simp only [hmm, if_true, if_false, Bool.false_eq_true] <;>
          exact ⟨by trivial,
            by simp [log_records, soft_delete_documents, hR, hN]⟩
  · simp [hne, h1]

/-- Claim C7: a failure of the audit sink never fails the caller.
`log_deletion_audit` on a state whose audit insert fails returns that
state unchanged (the exception is swallowed, nothing propagates), and
both orchestrator entry points produce the identical outcome (returned
value or raised error) and the identical record store whether the audit
sink is up or down. -/
theorem audit_sink_isolated :
    (∀ (s : DeletionState) (userId operationType : String)
       (target : List (String × String)) (deletedCount gcsDeletedCount : Nat)
       (success : Bool) (errors : List String),
       log_deletion_audit { s with auditSinkOk := false } userId operationType
         target deletedCount gcsDeletedCount success errors =
         { s with auditSinkOk := false }) ∧
    (∀ (cfg : Config) (s : DeletionState) (documentId userId : String) (b : Bool),
       (delete_image_transaction cfg { s with auditSinkOk := b }
         documentId userId).2 =
         (delete_image_transaction cfg s documentId userId).2 ∧
       (delete_image_transaction cfg { s with auditSinkOk := b }
         documentId userId).1.records =
         (delete_image_transaction cfg s documentId userId).1.records) ∧
    (∀ (cfg : Config) (s : DeletionState) (filterQuery : ImageRecord → Bool)
       (userId operationType : String) (targetInfo : List (String × String))
       (b : Bool),
       (delete_multiple_images_transaction cfg { s with auditSinkOk := b }
         filterQuery userId operationType targetInfo).2 =
         (delete_multiple_images_transaction cfg s filterQuery userId
           operationType targetInfo).2 ∧
       (delete_multiple_images_transaction cfg { s with auditSinkOk := b }
         filterQuery userId operationType targetInfo).1.records =
         (delete_multiple_images_transaction cfg s filterQuery userId
           operationType targetInfo).1.records) := by
  refine ⟨?_, ?_, ?_⟩
  · intro s u op tgt dc gc succ errs
    simp [log_deletion_audit]
  · intro cfg s documentId userId b
    exact image_out_congr cfg s { s with auditSinkOk := b } documentId userId
      rfl rfl rfl
  · intro cfg s filterQuery userId operationType targetInfo b
    exact set_out_congr cfg s { s with auditSinkOk := b } filterQuery userId
      operationType targetInfo rfl rfl rfl

/-- Claim C8: with soft delete enabled, the retention sweeper selects
exactly the records flagged soft-deleted whose soft-delete timestamp is
strictly older than now minus the retention period, attempts object-store
deletion of all their (non-empty) paths regardless of which deletions
fail, hard-deletes every matched record, and returns the count of records
hard-deleted.  No hypothesis restricts `gcsOk`, so the conclusion holds
even when some or all object deletions fail. -/
theorem sweeper_reaps (days : Nat) (s : DeletionState) :
    (∀ r : ImageRecord, expired_filter s.now days r = true ↔
      (r.isDeleted = true ∧ ∃ tt, r.deletedAt = some tt ∧ tt < s.now - days)) ∧
    (cleanup_expired_soft_deletes
      { softDeleteEnabled := true, softDeleteRetentionDays := days } s).2 =
      (s.records.filter (expired_filter s.now days)).length ∧
    (cleanup_expired_soft_deletes
      { softDeleteEnabled := true, softDeleteRetentionDays := days } s).1.records =
      s.records.filter (fun r => !(expired_filter s.now days r)) ∧
    (cleanup_expired_soft_deletes
      { softDeleteEnabled := true, softDeleteRetentionDays := days } s).1.gcsAttempted =
      s.gcsAttempted ++
        (s.records.filter (expired_filter s.now days)).filterMap getObjectPath := by
  obtain ⟨b1, b2, b3, b4, b5, b6⟩ :=
    batch_fst ((s.records.filter (expired_filter s.now days)).filterMap getObjectPath) s
  have hmain :
      (cleanup_expired_soft_deletes
        { softDeleteEnabled := true, softDeleteRetentionDays := days } s).2 =
        (s.records.filter (expired_filter s.now days)).length ∧
      (cleanup_expired_soft_deletes
        { softDeleteEnabled := true, softDeleteRetentionDays := days } s).1.records =
        s.records.filter (fun r => !(expired_filter s.now days r)) ∧
      (cleanup_expired_soft_deletes
        { softDeleteEnabled := true, softDeleteRetentionDays := days } s).1.gcsAttempted =
        s.gcsAttempted ++
          (s.records.filter (expired_filter s.now days)).filterMap getObjectPath := by
    unfold cleanup_expired_soft_deletes
    dsimp only
    cases hemp : (s.records.filter (expired_filter s.now days)).isEmpty
    · simp only [hemp, Bool.false_eq_true, if_false, Bool.not_true]
      simp [hard_delete_documents, b1, b6]
    · have hnil := List.isEmpty_iff.mp hemp
      have hall := List.filter_eq_nil_iff.mp hnil
      simp only [hemp, if_true, Bool.not_true, Bool.false_eq_true, if_false]
      refine ⟨by simp [hnil], ?_, by simp [hnil]⟩
      exact (List.filter_eq_self.mpr (fun a ha => by simpa using hall a ha)).symm
  refine ⟨?_, hmain.1, hmain.2.1, hmain.2.2⟩
  intro r
  unfold expired_filter
  cases hd : r.deletedAt <;> simp [hd]

/-- Claim C9: with the soft-delete flag disabled, the retention sweeper
returns 0 immediately and the whole state — records, object store logs,
audit log — is returned untouched, whatever records exist. -/
theorem sweeper_disabled (days : Nat) (s : DeletionState) :
    cleanup_expired_soft_deletes
      { softDeleteEnabled := false, softDeleteRetentionDays := days } s =
      (s, 0) := by
  simp [cleanup_expired_soft_deletes]

/-- Claim C10: for a set deletion in which some matched records have no
object-store path but every deletion of the existing paths succeeds and
the record-store count matches the match count, the operation succeeds
with a `gcsDeletedCount` strictly smaller than `deletedCount`, and the
success audit entry is written with these unequal counts. -/
theorem set_missing_paths_success (cfg : Config) (s : DeletionState)
    (filterQuery : ImageRecord → Bool) (userId operationType : String)
    (targetInfo : List (String × String))
    (hsink : s.auditSinkOk = true)
    (hne : s.records.filter filterQuery ≠ [])
    (hmiss : ((s.records.filter filterQuery).filterMap getObjectPath).length <
      (s.records.filter filterQuery).length)
    (herrs : (delete_gcs_objects_batch s
      ((s.records.filter filterQuery).filterMap getObjectPath)).2.2 = [])
    (hdc : (if cfg.softDeleteEnabled then
        (soft_delete_documents s filterQuery userId).2
      else
        (hard_delete_documents s filterQuery).2) =
      (s.records.filter filterQuery).length) :
    (delete_multiple_images_transaction cfg s filterQuery userId
      operationType targetInfo).2 =
      .ok { deletedCount := (s.records.filter filterQuery).length,
            gcsDeletedCount :=
              ((s.records.filter filterQuery).filterMap getObjectPath).length,
            expectedCount := (s.records.filter filterQuery).length,
            deletedImages := s.records.filter filterQuery } ∧
    ((s.records.filter filterQuery).filterMap getObjectPath).length <
      (s.records.filter filterQuery).length ∧
    (delete_multiple_images_transaction cfg s filterQuery userId
      operationType targetInfo).1.auditLog =
      s.auditLog ++
        [mkAudit s.now userId operationType targetInfo
          (s.records.filter filterQuery).length
          ((s.records.filter filterQuery).filterMap getObjectPath).length
          true []] := by
  obtain ⟨b1, b2, b3, b4, b5, b6⟩ :=
    batch_fst ((s.records.filter filterQuery).filterMap getObjectPath) s
  have hcnt := batch_count ((s.records.filter filterQuery).filterMap getObjectPath) s
  rw [herrs] at hcnt
  simp only [List.length_nil, Nat.add_zero] at hcnt
  have hne' : (s.records.filter filterQuery).isEmpty = false :=
    List.isEmpty_eq_false.mpr hne
  cases hs : cfg.softDeleteEnabled
  · have hdc0 : (hard_delete_documents s filterQuery).2 =
        (s.records.filter filterQuery).length := by
      simpa [hs] using hdc
    have hdcB : (hard_delete_documents (delete_gcs_objects_batch s
        ((s.records.filter filterQuery).filterMap getObjectPath)).1
        filterQuery).2 = (s.records.filter filterQuery).length := by
      rw [hard_count_congr s _ filterQuery b1]
      exact hdc0
    unfold delete_multiple_images_transaction
    simp only [hne', Bool.false_eq_true, if_false, herrs, List.isEmpty_nil,
      if_true, hs, hdcB, hcnt]
    refine ⟨by simp, hmiss, ?_⟩
    simp [log_deletion_audit, hard_delete_documents, b2, b3, b4, hsink]
  · have hdc0 : (soft_delete_documents s filterQuery userId).2 =
        (s.records.filter filterQuery).length := by
      simpa [hs] using hdc
    have hdcB : (soft_delete_documents (delete_gcs_objects_batch s
        ((s.records.filter filterQuery).filterMap getObjectPath)).1
        filterQuery userId).2 = (s.records.filter filterQuery).length := by
      rw [soft_count_congr s _ filterQuery userId b1 b4]
      exact hdc0
    unfold delete_multiple_images_transaction
    simp only [hne', Bool.false_eq_true, if_false, herrs, List.isEmpty_nil,
      if_true, hs, hdcB, hcnt]
    refine ⟨by simp, hmiss, ?_⟩
    simp [log_deletion_audit, soft_delete_documents, b2, b3, b4, hsink]

theorem set_missing_paths_success_witness :
    exStNoPath.records.filter (fun _ => true) ≠ [] ∧
    ((exStNoPath.records.filter (fun _ => true)).filterMap getObjectPath).length <
      (exStNoPath.records.filter (fun _ => true)).length ∧
    (delete_gcs_objects_batch exStNoPath
      ((exStNoPath.records.filter (fun _ => true)).filterMap getObjectPath)).2.2 = [] ∧
    (delete_multiple_images_transaction cfgHard exStNoPath (fun _ => true)
      "u" "banana" []).2 =
      .ok { deletedCount := 2, gcsDeletedCount := 1, expectedCount := 2,
            deletedImages := exStNoPath.records.filter (fun _ => true) } := by
  have h := set_missing_paths_success cfgHard exStNoPath (fun _ => true)
    "u" "banana" [] rfl (by decide) (by decide) rfl rfl
  exact ⟨by decide, by decide, rfl, h.1⟩
